import Mathlib

/-!
Verification of the stealthunit content-management server (`src/server.js`)
against its natural-language specification.

The embedding is shallow: each Express route handler becomes a Lean function
from the relevant piece of server state (the MongoDB collections, the upload
filesystem, the request session) to the new state plus an HTTP response.
MongoDB collections are lists of records; document ids are `Nat`; the
filesystem is the list of existing file paths.  External collaborators with
behaviour the server only observes (bcrypt comparison, filesystem unlink
failure) enter as explicit parameters of the handler functions.
-/

namespace StealthUnit

/-- JavaScript truthiness of an optional string field: `undefined`/absent and
the empty string are falsy, every other string is truthy. -/
def truthyStr : Option String → Bool
  | none => false
  | some s => s != ""

/-- The data `POST /adminp/login` stores in `req.session` on success
(`userId`, `username`, `role`, server.js lines 177-179).  Each field is
optional because a fresh session has none of them set. -/
structure SessionData where
  userId : Option String
  username : Option String
  role : Option String
deriving DecidableEq, Repr

/-- Whether `req.session && req.session.userId` evaluates truthy
(server.js line 131). -/
def sessionTruthy : Option SessionData → Bool
  | none => false
  | some s => truthyStr s.userId

/-- Outcome of the `requireAuth` middleware.  `proceed` carries the value of
the response-local username after the gate ran: `res.locals` starts empty for
each response and `requireAuth` never writes to it, so this is what the
downstream handler observes. -/
inductive GateResult where
  | proceed (localsUsername : Option String)
  | redirect (location : String)
deriving DecidableEq, Repr

/-- `requireAuth` (server.js lines 130-135): call `next()` when
`req.session && req.session.userId` is truthy, else redirect to
`/adminp/login`.  It touches nothing besides the session, so the
response-local username it hands to the handler is still unset. -/
def requireAuth (sess : Option SessionData) : GateResult :=
  if sessionTruthy sess then GateResult.proceed none
  else GateResult.redirect "/adminp/login"

/-- HTTP methods used by the route table. -/
inductive Method where
  | GET
  | POST
  | PUT
  | DELETE
deriving DecidableEq, Repr

/-- One registered Express route: method, path pattern, and whether the
`requireAuth` middleware is in its chain. -/
structure Route where
  method : Method
  path : String
  gated : Bool
deriving DecidableEq, Repr

/-- The route table of server.js in registration order (lines 138-399).
`gated` is true exactly for the routes whose registration lists
`requireAuth`. -/
def routes : List Route :=
  [ ⟨Method.GET, "/", false⟩
  , ⟨Method.GET, "/store", false⟩
  , ⟨Method.GET, "/team", false⟩
  , ⟨Method.GET, "/lookbook", false⟩
  , ⟨Method.GET, "/news", false⟩
  , ⟨Method.GET, "/contact", false⟩
  , ⟨Method.GET, "/adminp/login", false⟩
  , ⟨Method.POST, "/adminp/login", false⟩
  , ⟨Method.GET, "/adminp/logout", false⟩
  , ⟨Method.GET, "/adminp/dashboard", true⟩
  , ⟨Method.GET, "/api/admin/news", true⟩
  , ⟨Method.POST, "/api/admin/news", true⟩
  , ⟨Method.PUT, "/api/admin/news/:id", true⟩
  , ⟨Method.DELETE, "/api/admin/news/:id", true⟩
  , ⟨Method.GET, "/api/admin/players", true⟩
  , ⟨Method.POST, "/api/admin/players", true⟩
  , ⟨Method.PUT, "/api/admin/players/:id", true⟩
  , ⟨Method.DELETE, "/api/admin/players/:id", true⟩
  , ⟨Method.GET, "/api/admin/products", true⟩
  , ⟨Method.POST, "/api/admin/products", true⟩
  , ⟨Method.PUT, "/api/admin/products/:id", true⟩
  , ⟨Method.DELETE, "/api/admin/products/:id", true⟩
  , ⟨Method.GET, "/api/news", false⟩
  , ⟨Method.GET, "/api/players", false⟩
  , ⟨Method.GET, "/api/products", false⟩
  , ⟨Method.GET, "*", false⟩ ]

/-- An HTTP response as far as the claims observe it: the status code and the
redirect target if the handler answered with `res.redirect` (Express sends
status 302).  `res.json(x)` responds 200 with no redirect. -/
structure HttpResponse where
  status : Nat
  redirectTo : Option String
deriving DecidableEq, Repr

/-- A document of the `admins` collection (adminSchema, server.js lines
77-81): MongoDB `_id`, unique username, bcrypt password hash, role. -/
structure AdminRec where
  id : String
  username : String
  password : String
  role : String
deriving DecidableEq, Repr

/-- The effect of process start on the admin collection.  Startup (server.js
lines 68-74) runs `mongoose.connect(...).then(() => console.log(...))`: it
only logs, and no other startup code touches the `Admin` model, so the
collection is unchanged — in particular no default administrator is
created. -/
def bootstrapAdmins (admins : List AdminRec) : List AdminRec :=
  admins

/-- The gate viewed as a function of the whole admin collection as well as the
session.  `requireAuth` reads only `req.session.userId` and performs no query,
so the collection argument is unused; making it explicit lets us state that
the gate's decision is independent of the admin store. -/
def requireAuthWithAdmins (admins : List AdminRec) (sess : Option SessionData) :
    GateResult :=
  requireAuth sess

/-- Result of the login handler: the response sent and the session after the
handler ran. -/
structure LoginOutcome where
  response : HttpResponse
  session : Option SessionData
deriving DecidableEq, Repr

/-- `POST /adminp/login` (server.js lines 167-191).  `bcryptCompare` stands
for `bcrypt.compare` (an external collaborator): it receives the supplied
plaintext and the stored hash.  On success the handler stores the admin's id,
username and role in the session and redirects to the dashboard; otherwise it
answers `401 Invalid credentials` and leaves the session as it was. -/
def postAdminpLogin (admins : List AdminRec) (bcryptCompare : String → String → Bool)
    (sess : Option SessionData) (username password : String) : LoginOutcome :=
  match admins.find? (fun a => a.username == username) with
  | some admin =>
    if bcryptCompare password admin.password then
      { response := { status := 302, redirectTo := some "/adminp/dashboard" }
      , session := some { userId := some admin.id
                        , username := some admin.username
                        , role := some admin.role } }
    else
      { response := { status := 401, redirectTo := none }, session := sess }
  | none => { response := { status := 401, redirectTo := none }, session := sess }

/-- A document of the `news` collection (newsSchema, server.js lines 83-89). -/
structure NewsArticle where
  id : Nat
  title : String
  content : String
  image : Option String
  date : Nat
  author : String
deriving DecidableEq, Repr

/-- The request body accepted by the news creation and update endpoints:
every schema field may be present or absent. -/
structure NewsBody where
  title : Option String
  content : Option String
  image : Option String
  date : Option Nat
  author : Option String
deriving DecidableEq, Repr

/-- Mongoose's `required: true` check for a String path: it fails when the
value is absent and also when it is the empty string. -/
def reqStringOk : Option String → Bool
  | none => false
  | some s => s != ""

/-- `POST /api/admin/news` (server.js lines 220-228).  `new News(req.body)`
plus `save()` runs schema validation: `title` and `content` are required, so
a missing (or empty) one makes `save()` throw, the catch block answers 500
and nothing is inserted.  On success the document is inserted with the
defaults `date: Date.now` and `author: 'StealthUnitGG'` applied, and the
handler answers 201. -/
def postAdminNews (store : List NewsArticle) (body : NewsBody) (now : Nat)
    (newId : Nat) : List NewsArticle × HttpResponse :=
  if reqStringOk body.title && reqStringOk body.content then
    (store ++ [⟨newId, body.title.getD "", body.content.getD "", body.image,
               body.date.getD now, body.author.getD "StealthUnitGG"⟩],
     ⟨201, none⟩)
  else
    (store, ⟨500, none⟩)

/-- `DELETE /api/admin/news/:id` (server.js lines 239-246).
`findByIdAndDelete` removes the document with the given id when present and
resolves to `null` otherwise — it does not throw on a missing id — so the
handler always reaches `res.json(message)`, a 200 response. -/
def deleteAdminNews (store : List NewsArticle) (id : Nat) :
    List NewsArticle × HttpResponse :=
  (store.filter (fun a => a.id != id), ⟨200, none⟩)

/-- The comparator of `.sort(\x7b date: -1 \x7d)`: descending creation date. -/
def newsDateDesc (a b : NewsArticle) : Bool :=
  decide (b.date ≤ a.date)

/-- `GET /api/admin/news` (server.js lines 211-218): all articles, sorted by
date descending. -/
def getApiAdminNews (store : List NewsArticle) : List NewsArticle × HttpResponse :=
  (store.mergeSort newsDateDesc, ⟨200, none⟩)

/-- `GET /api/news` (server.js lines 369-376): sorted by date descending and
capped by `.limit(10)`. -/
def getApiNews (store : List NewsArticle) : List NewsArticle × HttpResponse :=
  ((store.mergeSort newsDateDesc).take 10, ⟨200, none⟩)

/-- Nested `socialLinks` sub-document of playerSchema (server.js lines
98-103). -/
structure SocialLinks where
  twitter : Option String
  instagram : Option String
  twitch : Option String
  youtube : Option String
deriving DecidableEq, Repr

/-- Nested `stats` sub-document of playerSchema (server.js lines 104-109).
The schema stores the ratio as supplied, never recomputing it; no claim
depends on float arithmetic, so the numbers are modelled as integers. -/
structure PlayerStats where
  kills : Int
  deaths : Int
  assists : Int
  kdRatio : Int
deriving DecidableEq, Repr

/-- A document of the `players` collection (playerSchema, server.js lines
91-112).  The creation handler always assigns `image` (uploaded path, body
URL, or `''`), so it is a plain string with `''` for "no image" — matching
the truthiness test `player.image` in the delete and update handlers. -/
structure PlayerRec where
  id : Nat
  name : String
  username : String
  role : String
  game : String
  bio : Option String
  image : String
  socialLinks : SocialLinks
  stats : PlayerStats
  achievements : List String
  teamHistory : List String
deriving DecidableEq, Repr

/-- Split a character list at `/` (the semantics of `"…".split('/')`). -/
def splitSlashAux : List Char → List Char → List String
  | [], acc => [String.mk acc.reverse]
  | c :: cs, acc =>
    if c == '/' then String.mk acc.reverse :: splitSlashAux cs []
    else splitSlashAux cs (c :: acc)

/-- Split a path string into its `/`-separated segments. -/
def splitSlash (s : String) : List String :=
  splitSlashAux s.data []

/-- Node path normalization over segments of an absolute path: drop empty and
`.` segments and resolve each `..` against the segment before it (clamped at
the root, as Node does for absolute paths). -/
def normSegs (segs : List String) : List String :=
  segs.foldl
    (fun acc s =>
      if s == "" || s == "." then acc
      else if s == ".." then acc.dropLast
      else acc ++ [s])
    []

/-- Render normalized segments back to an absolute path string. -/
def renderAbs : List String → String
  | [] => "/"
  | segs => segs.foldl (fun acc s => acc ++ "/" ++ s) ""

/-- Node's `path.join(a, b, c)` for an absolute first component: concatenate
the parts' segments and normalize. -/
def pathJoin (parts : List String) : String :=
  renderAbs (normSegs (parts.flatMap splitSlash))

/-- Whether one character list is an initial run of another. -/
def charsStart : List Char → List Char → Bool
  | [], _ => true
  | _ :: _, [] => false
  | a :: as, b :: bs => a == b && charsStart as bs

/-- Whether the string `s` starts with `pre` (used to say when a disk path
lies inside a directory). -/
def strStarts (pre s : String) : Bool :=
  charsStart pre.data s.data

/-- The path the player handlers unlink for a stored image string:
`path.join(__dirname, 'public', player.image)` (server.js lines 289 and
314). -/
def playerImageDiskPath (dirname image : String) : String :=
  pathJoin [dirname, "public", image]

/-- Result of a player mutation: the collection and filesystem afterwards,
the response, whether a filesystem error was caught and logged, and whether
any filesystem error escaped the handler uncaught. -/
structure PlayerMutationResult where
  players : List PlayerRec
  fs : List String
  response : HttpResponse
  fsErrorLogged : Bool
  fsErrorUncaught : Bool
deriving DecidableEq, Repr

/-- `DELETE /api/admin/players/:id` (server.js lines 307-328).  Look the
player up; if it exists and has a truthy image, compute the disk path, and if
that file exists, `unlinkSync` it inside a `try/catch` that only logs
(`unlinkFails` says whether the unlink throws).  Then `findByIdAndDelete`
removes the record — unconditionally reached — and `res.json` answers 200,
also when the id was absent. -/
def deleteAdminPlayer (dirname : String) (players : List PlayerRec)
    (fs : List String) (unlinkFails : Bool) (id : Nat) : PlayerMutationResult :=
  let remaining := players.filter (fun p => p.id != id)
  match players.find? (fun p => p.id == id) with
  | some p =>
    if p.image != "" then
      let ip := playerImageDiskPath dirname p.image
      if fs.contains ip then
        if unlinkFails then
          ⟨remaining, fs, ⟨200, none⟩, true, false⟩
        else
          ⟨remaining, fs.filter (fun q => q != ip), ⟨200, none⟩, false, false⟩
      else
        ⟨remaining, fs, ⟨200, none⟩, false, false⟩
    else
      ⟨remaining, fs, ⟨200, none⟩, false, false⟩
  | none => ⟨remaining, fs, ⟨200, none⟩, false, false⟩

/-- The request body of the player update endpoint: any subset of the schema
fields (`updateData = \x7b ...req.body \x7d`). -/
structure PlayerPatch where
  name : Option String
  username : Option String
  role : Option String
  game : Option String
  bio : Option String
  image : Option String
  socialLinks : Option SocialLinks
  stats : Option PlayerStats
  achievements : Option (List String)
  teamHistory : Option (List String)
deriving DecidableEq, Repr

/-- `findByIdAndUpdate(id, updateData)`: each field present in the update
replaces the stored one. -/
def applyPatch (p : PlayerRec) (patch : PlayerPatch) : PlayerRec :=
  { p with
    name := patch.name.getD p.name
    username := patch.username.getD p.username
    role := patch.role.getD p.role
    game := patch.game.getD p.game
    bio := match patch.bio with | some b => some b | none => p.bio
    image := patch.image.getD p.image
    socialLinks := patch.socialLinks.getD p.socialLinks
    stats := patch.stats.getD p.stats
    achievements := patch.achievements.getD p.achievements
    teamHistory := patch.teamHistory.getD p.teamHistory }

/-- `PUT /api/admin/players/:id` (server.js lines 277-305).  When a file was
uploaded (`uploadedFile` is its generated name), the handler overrides the
body's image with `/uploads/<filename>` and, inside a logging-only
`try/catch`, unlinks the player's previous image file if its disk path
exists.  Then `findByIdAndUpdate` applies the update and `res.json` answers
200. -/
def putAdminPlayer (dirname : String) (players : List PlayerRec)
    (fs : List String) (unlinkFails : Bool) (id : Nat) (patch : PlayerPatch)
    (uploadedFile : Option String) : PlayerMutationResult :=
  let patched :=
    match uploadedFile with
    | some f => { patch with image := some ("/uploads/" ++ f) }
    | none => patch
  let fsStep : List String × Bool :=
    match uploadedFile with
    | some _ =>
      match players.find? (fun p => p.id == id) with
      | some p =>
        if p.image != "" then
          let old := playerImageDiskPath dirname p.image
          if fs.contains old then
            if unlinkFails then (fs, true)
            else (fs.filter (fun q => q != old), false)
          else (fs, false)
        else (fs, false)
      | none => (fs, false)
    | none => (fs, false)
  ⟨players.map (fun p => if p.id == id then applyPatch p patched else p),
   fsStep.1, ⟨200, none⟩, fsStep.2, false⟩

/-- A document of the `products` collection (productSchema, server.js lines
114-121). -/
structure Product where
  id : Nat
  name : String
  description : String
  price : Int
  image : String
  category : Option String
  inStock : Bool
deriving DecidableEq, Repr

/-- The request body of the product creation endpoint. -/
structure ProductBody where
  name : Option String
  description : Option String
  price : Option Int
  image : Option String
  category : Option String
  inStock : Option Bool
deriving DecidableEq, Repr

/-- The closed category enumeration of productSchema. -/
def productCategories : List String :=
  ["Apparel", "Accessories", "Collectibles"]

/-- `new Product(req.body)` followed by schema validation on `save()`:
`name`, `description`, `price` and `image` are required (the string ones
failing also on `''`), a present `category` must belong to the enumeration,
and the default `inStock: true` is applied when the field was omitted.
`none` means `save()` throws a validation error. -/
def validateProduct (body : ProductBody) (newId : Nat) : Option Product :=
  match body.name, body.description, body.price, body.image with
  | some n, some d, some pr, some im =>
    if n != "" && d != "" && im != "" then
      match body.category with
      | some c =>
        if productCategories.contains c then
          some ⟨newId, n, d, pr, im, some c, body.inStock.getD true⟩
        else none
      | none => some ⟨newId, n, d, pr, im, none, body.inStock.getD true⟩
    else none
  | _, _, _, _ => none

/-- `POST /api/admin/products` (server.js lines 340-348).  A validation
failure makes `save()` throw and the catch answers 500 with nothing
inserted; on success the document is inserted and the handler answers
201. -/
def postAdminProducts (store : List Product) (body : ProductBody) (newId : Nat) :
    List Product × HttpResponse :=
  match validateProduct body newId with
  | some q => (store ++ [q], ⟨201, none⟩)
  | none => (store, ⟨500, none⟩)

/-- `DELETE /api/admin/products/:id` (server.js lines 359-366): same shape as
news deletion — `findByIdAndDelete` then an unconditional 200 message. -/
def deleteAdminProduct (store : List Product) (id : Nat) :
    List Product × HttpResponse :=
  (store.filter (fun p => p.id != id), ⟨200, none⟩)

/-- `GET /api/products` (server.js lines 387-394): `find(\x7b inStock: true \x7d)`
— public listing of in-stock products only. -/
def getApiProducts (store : List Product) : List Product × HttpResponse :=
  (store.filter (fun p => p.inStock), ⟨200, none⟩)

/-- `GET /api/admin/products` (server.js lines 331-338): all products. -/
def getApiAdminProducts (store : List Product) : List Product × HttpResponse :=
  (store, ⟨200, none⟩)

/-- Sample value: player with no social links. -/
def noLinks : SocialLinks :=
  ⟨none, none, none, none⟩

/-- Sample value: all-zero statistics. -/
def zeroStats : PlayerStats :=
  ⟨0, 0, 0, 0⟩

/-- Sample player record with a given id and stored image string. -/
def samplePlayer (id : Nat) (image : String) : PlayerRec :=
  ⟨id, "Shadow", "shadow", "Rifler", "CS2", none, image, noLinks, zeroStats, [], []⟩

/-- The update body with no field present. -/
def emptyPatch : PlayerPatch :=
  ⟨none, none, none, none, none, none, none, none, none, none⟩

/-- Sample store of eleven news articles with distinct dates. -/
def elevenNews : List NewsArticle :=
  (List.range 11).map (fun i => ⟨i, "title", "content", none, i, "StealthUnitGG"⟩)

/-- Sample creation body with the `inStock` field omitted. -/
def bodyStockOmitted : ProductBody :=
  ⟨some "Jersey", some "Team jersey", some 60, some "/uploads/j.png", some "Apparel", none⟩

/-- Sample creation body with `inStock = false`. -/
def bodyStockFalse : ProductBody :=
  ⟨some "Hoodie", some "Team hoodie", some 80, some "/uploads/h.png", some "Apparel", some false⟩

/-- Claim C1, counterexample.  The claim quantifies over every path under
`/adminp/`, but `GET /adminp/login` is registered without `requireAuth`, so
the gate is not applied there; and even where the gate does run and lets a
request proceed, it leaves the response-local username unset rather than
attaching the session's username. -/
theorem c1_counterexample :
    (Route.mk Method.GET "/adminp/login" false ∈ routes ∧
     strStarts "/adminp/" "/adminp/login" = true) ∧
    requireAuth (some ⟨some "507f1f77bcf86cd799439011", some "admin", some "admin"⟩) =
      GateResult.proceed none := by
  exact ⟨⟨by decide, by decide⟩, by decide⟩

/-- Claim C1, amended.  Every `/api/admin/*` route and `/adminp/dashboard`
carry the gate (the login and logout routes under `/adminp/` do not), and the
gate lets a request proceed exactly when the session holds a truthy `userId`
— without writing the username to response-local context — and otherwise
redirects to `/adminp/login`. -/
theorem c1_gate_on_gated_routes (sess : Option SessionData) :
    (∀ r ∈ routes, strStarts "/api/admin/" r.path = true → r.gated = true) ∧
    Route.mk Method.GET "/adminp/dashboard" true ∈ routes ∧
    (sessionTruthy sess = true → requireAuth sess = GateResult.proceed none) ∧
    (sessionTruthy sess = false → requireAuth sess = GateResult.redirect "/adminp/login") := by
  refine ⟨by decide, by decide, ?_, ?_⟩ <;> intro h <;> simp [requireAuth, h]

/-- Claim C1, witness: the amended theorem applied to a concrete
authenticated session. -/
theorem c1_witness :
    requireAuth (some ⟨some "42", some "admin", some "admin"⟩) = GateResult.proceed none :=
  (c1_gate_on_gated_routes (some ⟨some "42", some "admin", some "admin"⟩)).2.2.1 (by decide)

/-- Claim C2, counterexample.  Startup performs no seeding at all: after
bootstrap on an empty admin collection there is no administrator (not
exactly one), and the first-run login with any credentials answers 401 and
establishes no session. -/
theorem c2_counterexample :
    ¬ (bootstrapAdmins []).length = 1 ∧
    (postAdminpLogin (bootstrapAdmins []) (fun _ _ => true) none "admin" "password").response.status = 401 ∧
    (postAdminpLogin (bootstrapAdmins []) (fun _ _ => true) none "admin" "password").session = none := by
  exact ⟨by decide, by decide, by decide⟩

/-- Claim C2, amended.  The bootstrap leaves the admin collection unchanged
— it creates no default administrator — so on first run the collection is
empty and every `POST /adminp/login`, whatever credentials and password
comparison, answers 401 and leaves the session as it was. -/
theorem c2_no_seeding (admins : List AdminRec) (cmp : String → String → Bool)
    (sess : Option SessionData) (u p : String) :
    bootstrapAdmins admins = admins ∧
    (postAdminpLogin (bootstrapAdmins []) cmp sess u p).response.status = 401 ∧
    (postAdminpLogin (bootstrapAdmins []) cmp sess u p).session = sess := by
  refine ⟨rfl, ?_, ?_⟩ <;> simp [bootstrapAdmins, postAdminpLogin]

/-- Claim C3, counterexample.  A creation body missing the title is rejected
with status 500, not 400 (the handler's catch block maps the mongoose
validation error to 500); nothing is persisted. -/
theorem c3_counterexample :
    ¬ (postAdminNews [] ⟨none, some "content", none, none, none⟩ 0 1).2.status = 400 ∧
    (postAdminNews [] ⟨none, some "content", none, none, none⟩ 0 1).1 = [] := by
  exact ⟨by decide, by decide⟩

/-- Claim C3, amended.  A creation body missing the title or missing the
content yields status 500 (not 400) and leaves the news store unchanged. -/
theorem c3_missing_required_field (store : List NewsArticle) (body : NewsBody)
    (now newId : Nat) (h : body.title = none ∨ body.content = none) :
    (postAdminNews store body now newId).2.status = 500 ∧
    (postAdminNews store body now newId).1 = store := by
  unfold postAdminNews
  rcases h with h | h <;> simp [h, reqStringOk]

/-- Claim C3, witness: the amended theorem at a concrete body with no
title. -/
theorem c3_witness :
    (postAdminNews [] ⟨none, some "c", none, none, none⟩ 0 1).2.status = 500 ∧
    (postAdminNews [] ⟨none, some "c", none, none, none⟩ 0 1).1 = [] :=
  c3_missing_required_field [] ⟨none, some "c", none, none, none⟩ 0 1 (Or.inl rfl)

/-- Claim C4, counterexample.  Deleting an id absent from the collection
answers 200 (the unconditional success message), not 404, for each of the
three admin-managed entities. -/
theorem c4_counterexample :
    ¬ (deleteAdminNews [] 5).2.status = 404 ∧
    ¬ (deleteAdminPlayer "/app" [] [] false 5).response.status = 404 ∧
    ¬ (deleteAdminProduct [] 5).2.status = 404 := by
  exact ⟨by decide, by decide, by decide⟩

/-- Claim C4, amended.  Deleting an id that exists in none of the three
collections leaves each store (and, for players, the filesystem) unchanged
and answers 200 with the success message, not 404. -/
theorem c4_delete_missing_id (news : List NewsArticle) (players : List PlayerRec)
    (products : List Product) (dirname : String) (fs : List String)
    (unlinkFails : Bool) (id : Nat)
    (hn : ∀ a ∈ news, a.id ≠ id) (hp : ∀ q ∈ players, q.id ≠ id)
    (hq : ∀ q ∈ products, q.id ≠ id) :
    deleteAdminNews news id = (news, ⟨200, none⟩) ∧
    deleteAdminPlayer dirname players fs unlinkFails id =
      ⟨players, fs, ⟨200, none⟩, false, false⟩ ∧
    deleteAdminProduct products id = (products, ⟨200, none⟩) := by
  have hn' : news.filter (fun a => a.id != id) = news :=
    List.filter_eq_self.mpr (fun a ha => by simpa using hn a ha)
  have hp' : players.filter (fun q => q.id != id) = players :=
    List.filter_eq_self.mpr (fun q hq2 => by simpa using hp q hq2)
  have hq' : products.filter (fun q => q.id != id) = products :=
    List.filter_eq_self.mpr (fun q hq2 => by simpa using hq q hq2)
  have hfind : players.find? (fun q => q.id == id) = none :=
    List.find?_eq_none.mpr (fun q hq2 => by simpa using hp q hq2)
  refine ⟨?_, ?_, ?_⟩
  · simp [deleteAdminNews, hn']
  · simp [deleteAdminPlayer, hfind, hp']
  · simp [deleteAdminProduct, hq']

/-- Claim C4, witness: the amended theorem on concrete one-element stores and
an id none of them contains. -/
theorem c4_witness :
    deleteAdminNews [⟨1, "t", "c", none, 0, "a"⟩] 2 =
      ([⟨1, "t", "c", none, 0, "a"⟩], ⟨200, none⟩) ∧
    deleteAdminPlayer "/app" [samplePlayer 1 ""] ["/app/x"] false 2 =
      ⟨[samplePlayer 1 ""], ["/app/x"], ⟨200, none⟩, false, false⟩ ∧
    deleteAdminProduct [] 2 = ([], ⟨200, none⟩) :=
  c4_delete_missing_id [⟨1, "t", "c", none, 0, "a"⟩] [samplePlayer 1 ""] [] "/app"
    ["/app/x"] false 2 (by decide) (by decide) (by decide)

/-- Claim C5, counterexample.  A login with an unknown username (or a failing
password comparison) answers `401 Invalid credentials` — it does not redirect
to the login page — though it indeed establishes no session. -/
theorem c5_counterexample :
    (postAdminpLogin [⟨"id1", "admin", "hash", "admin"⟩] (fun _ _ => false) none
        "nobody" "pw").response = ⟨401, none⟩ ∧
    (postAdminpLogin [⟨"id1", "admin", "hash", "admin"⟩] (fun _ _ => false) none
        "nobody" "pw").response.redirectTo ≠ some "/adminp/login" ∧
    (postAdminpLogin [⟨"id1", "admin", "hash", "admin"⟩] (fun _ _ => false) none
        "admin" "wrong").response = ⟨401, none⟩ := by
  exact ⟨by decide, by decide, by decide⟩

/-- Claim C5, amended.  When the username matches no administrator, or the
password comparison against the stored hash fails, the handler answers 401
JSON (no redirect) and leaves the session unchanged — no authenticated
session is established. -/
theorem c5_invalid_credentials (admins : List AdminRec) (cmp : String → String → Bool)
    (sess : Option SessionData) (u p : String)
    (h : ∀ a, admins.find? (fun x => x.username == u) = some a → cmp p a.password = false) :
    (postAdminpLogin admins cmp sess u p).response = ⟨401, none⟩ ∧
    (postAdminpLogin admins cmp sess u p).session = sess := by
  unfold postAdminpLogin
  cases hf : admins.find? (fun x => x.username == u) with
  | none => simp
  | some a => simp [h a hf]

/-- Claim C5, witness: the amended theorem at a concrete store and a password
comparison that rejects. -/
theorem c5_witness :
    (postAdminpLogin [⟨"id1", "admin", "hash", "admin"⟩] (fun _ _ => false) none
        "admin" "wrong").response = ⟨401, none⟩ ∧
    (postAdminpLogin [⟨"id1", "admin", "hash", "admin"⟩] (fun _ _ => false) none
        "admin" "wrong").session = none :=
  c5_invalid_credentials [⟨"id1", "admin", "hash", "admin"⟩] (fun _ _ => false) none
    "admin" "wrong" (fun _ _ => rfl)

/-- Claim C6, counterexample.  The public news listing is capped by
`.limit(10)`: on a store of eleven articles it does not return all of
them. -/
theorem c6_counterexample :
    ((getApiNews elevenNews).1).length ≠ elevenNews.length := by
  simp [getApiNews, elevenNews, List.length_take, List.length_mergeSort]

/-- Claim C6, amended.  The admin listing returns all articles sorted by
creation date descending; the public listing returns the first ten of that
same descending order (the `.limit(10)` cap), not all articles. -/
theorem c6_news_listing (store : List NewsArticle) :
    ((getApiAdminNews store).1).Perm store ∧
    List.Pairwise (fun a b => newsDateDesc a b = true) (getApiAdminNews store).1 ∧
    (getApiNews store).1 = ((getApiAdminNews store).1).take 10 := by
  refine ⟨List.mergeSort_perm store newsDateDesc, ?_, rfl⟩
  exact List.sorted_mergeSort
    (fun a b c hab hbc => by simp [newsDateDesc] at *; omega)
    (fun a b => by simp [newsDateDesc]; omega)
    store

/-- Helper: a successfully validated product document carries
`inStock = body.inStock.getD true` — the schema default applied to the
body's field. -/
theorem validateProduct_inStock (body : ProductBody) (newId : Nat) (q : Product)
    (h : validateProduct body newId = some q) :
    q.inStock = body.inStock.getD true := by
  unfold validateProduct at h
  split at h
  · split at h
    · split at h
      · split at h
        · exact congrArg Product.inStock (Option.some.inj h).symm ▸ rfl
        · exact absurd h (by simp)
      · exact congrArg Product.inStock (Option.some.inj h).symm ▸ rfl
    · exact absurd h (by simp)
  · exact absurd h (by simp)

/-- Claim C7.  A product whose creation succeeded with `inStock` omitted is
stored with `inStock = true` and appears in the public listing; one created
with `inStock = false` is absent from the public listing but present in the
admin listing. -/
theorem c7_product_round_trip (store : List Product) (body : ProductBody) (newId : Nat)
    (h201 : (postAdminProducts store body newId).2.status = 201) :
    (body.inStock = none →
      ∃ q, (postAdminProducts store body newId).1 = store ++ [q] ∧ q.inStock = true ∧
        q ∈ (getApiProducts (postAdminProducts store body newId).1).1) ∧
    (body.inStock = some false →
      ∃ q, (postAdminProducts store body newId).1 = store ++ [q] ∧
        q ∉ (getApiProducts (postAdminProducts store body newId).1).1 ∧
        q ∈ (getApiAdminProducts (postAdminProducts store body newId).1).1) := by
  cases hv : validateProduct body newId with
  | none => simp [postAdminProducts, hv] at h201
  | some q =>
    have hstock := validateProduct_inStock body newId q hv
    constructor
    · intro hnone
      have hq : q.inStock = true := by rw [hstock, hnone]; rfl
      refine ⟨q, by simp [postAdminProducts, hv], hq, ?_⟩
      simp [postAdminProducts, hv, getApiProducts, List.mem_filter, hq]
    · intro hfalse
      have hq : q.inStock = false := by rw [hstock, hfalse]; rfl
      refine ⟨q, by simp [postAdminProducts, hv], ?_, ?_⟩
      · intro hmem
        rw [getApiProducts] at hmem
        exact absurd (List.mem_filter.mp hmem).2 (by simp [hq])
      · simp [postAdminProducts, hv, getApiAdminProducts]

/-- Claim C7, witness: the theorem applied to a concrete body with `inStock`
omitted and one with `inStock = false`, each creating into an empty store. -/
theorem c7_witness :
    (∃ q, (postAdminProducts [] bodyStockOmitted 1).1 = [] ++ [q] ∧ q.inStock = true ∧
      q ∈ (getApiProducts (postAdminProducts [] bodyStockOmitted 1).1).1) ∧
    (∃ q, (postAdminProducts [] bodyStockFalse 2).1 = [] ++ [q] ∧
      q ∉ (getApiProducts (postAdminProducts [] bodyStockFalse 2).1).1 ∧
      q ∈ (getApiAdminProducts (postAdminProducts [] bodyStockFalse 2).1).1) :=
  ⟨(c7_product_round_trip [] bodyStockOmitted 1 (by decide)).1 rfl,
   (c7_product_round_trip [] bodyStockFalse 2 (by decide)).2 rfl⟩

/-- Claim C8.  Deleting a player found in the store with a truthy image
always removes the record and answers 200 with no filesystem error escaping
the handler; when the image's disk path exists and the unlink succeeds the
file is removed too; when the unlink throws, the failure is only logged and
the record deletion still proceeds; when the disk path does not exist (the
stored image is an external URL), the filesystem is untouched and nothing is
logged. -/
theorem c8_player_delete_image_sync (dirname : String) (players : List PlayerRec)
    (fs : List String) (id : Nat) (p : PlayerRec) (unlinkFails : Bool)
    (hfind : players.find? (fun q => q.id == id) = some p)
    (himg : p.image ≠ "") :
    (deleteAdminPlayer dirname players fs unlinkFails id).players =
      players.filter (fun q => q.id != id) ∧
    (deleteAdminPlayer dirname players fs unlinkFails id).response = ⟨200, none⟩ ∧
    (deleteAdminPlayer dirname players fs unlinkFails id).fsErrorUncaught = false ∧
    (fs.contains (playerImageDiskPath dirname p.image) = true → unlinkFails = false →
      (deleteAdminPlayer dirname players fs unlinkFails id).fs =
        fs.filter (fun q => q != playerImageDiskPath dirname p.image)) ∧
    (fs.contains (playerImageDiskPath dirname p.image) = true → unlinkFails = true →
      (deleteAdminPlayer dirname players fs unlinkFails id).fs = fs ∧
      (deleteAdminPlayer dirname players fs unlinkFails id).fsErrorLogged = true) ∧
    (fs.contains (playerImageDiskPath dirname p.image) = false →
      (deleteAdminPlayer dirname players fs unlinkFails id).fs = fs ∧
      (deleteAdminPlayer dirname players fs unlinkFails id).fsErrorLogged = false) := by
  have himg' : (p.image != "") = true := by simpa using himg
  unfold deleteAdminPlayer
  by_cases hc : playerImageDiskPath dirname p.image ∈ fs
  · have hc' : fs.contains (playerImageDiskPath dirname p.image) = true := by simpa using hc
    cases unlinkFails <;> simp [hfind, himg', hc, hc']
  · have hc' : fs.contains (playerImageDiskPath dirname p.image) = false := by simpa using hc
    cases unlinkFails <;> simp [hfind, himg', hc, hc']

/-- Claim C8, witness: the theorem on a one-player store whose image is a
managed upload present on disk, with a succeeding unlink. -/
theorem c8_witness :
    (deleteAdminPlayer "/app" [samplePlayer 1 "/uploads/p.png"]
        ["/app/public/uploads/p.png"] false 1).players = [] ∧
    (deleteAdminPlayer "/app" [samplePlayer 1 "/uploads/p.png"]
        ["/app/public/uploads/p.png"] false 1).fs = [] := by
  have h := c8_player_delete_image_sync "/app" [samplePlayer 1 "/uploads/p.png"]
    ["/app/public/uploads/p.png"] 1 (samplePlayer 1 "/uploads/p.png") false
    (by decide) (by decide)
  refine ⟨?_, ?_⟩
  · rw [h.1]; decide
  · rw [h.2.2.2.1 (by decide) rfl]; decide

/-- Claim C9.  The gate's decision reads only the truthiness of the
session's `userId`: it queries nothing, so for any two states of the admin
collection — including one where the session's administrator was deleted —
and any two sessions of equal `userId`-truthiness, the allow/redirect
outcome is identical. -/
theorem c9_gate_ignores_admin_store (admins1 admins2 : List AdminRec)
    (s1 s2 : Option SessionData) (h : sessionTruthy s1 = sessionTruthy s2) :
    requireAuthWithAdmins admins1 s1 = requireAuthWithAdmins admins2 s2 := by
  simp [requireAuthWithAdmins, requireAuth, h]

/-- Claim C9, witness: the same session is allowed through both against a
store containing its administrator and against the empty store where that
administrator has been deleted. -/
theorem c9_witness :
    requireAuthWithAdmins [⟨"id9", "admin", "hash", "admin"⟩]
        (some ⟨some "id9", some "admin", some "admin"⟩) =
      requireAuthWithAdmins [] (some ⟨some "id9", some "admin", some "admin"⟩) :=
  c9_gate_ignores_admin_store [⟨"id9", "admin", "hash", "admin"⟩] []
    (some ⟨some "id9", some "admin", some "admin"⟩)
    (some ⟨some "id9", some "admin", some "admin"⟩) rfl

/-- Claim C10.  The unlink path is `path.join(__dirname, 'public', image)`
with the stored image string taken verbatim and no containment check: for
the stored image `../../etc/secret` the resolved path is `/etc/secret`,
outside the uploads directory (and outside `public` altogether), and both
the delete handler and the update handler with a fresh upload remove that
file from the filesystem. -/
theorem c10_image_path_traversal :
    ∃ image : String,
      playerImageDiskPath "/app" image = "/etc/secret" ∧
      strStarts "/app/public/uploads/" (playerImageDiskPath "/app" image) = false ∧
      strStarts "/app/public/" (playerImageDiskPath "/app" image) = false ∧
      (deleteAdminPlayer "/app" [samplePlayer 1 image]
          [playerImageDiskPath "/app" image] false 1).fs = [] ∧
      (putAdminPlayer "/app" [samplePlayer 1 image]
          [playerImageDiskPath "/app" image] false 1 emptyPatch (some "new.png")).fs = [] := by
  exact ⟨"../../etc/secret", by decide, by decide, by decide, by decide, by decide⟩

end StealthUnit
